import Mathlib

/-!
Shallow embedding of the FluxNews ingestion-to-notification pipeline
(backend/app/services): impact scoring, the notification queue and
dispatcher, article deduplication and the outbound rate limiter.
Python floats are modelled as exact rationals (every constant in the
source is a decimal literal); wall-clock datetimes are modelled as
rational numbers of seconds.
-/

namespace FluxNews

/-! ## Impact scoring (`services/impact/impact_models.py`) -/

/-- `RelationshipType` enum from `impact_models.py`. -/
inductive RelationshipType where
  | competitor
  | partner
  | supplier
  | customer
  | investor
  | subsidiary
deriving DecidableEq

/-- `CompanyRelationWeight.get_default_weight`: per-relationship weight
(`DEFAULT_WEIGHTS`; the dict covers all six members, so the `.get`
fallback `0.5` is unreachable). -/
def getDefaultWeight : RelationshipType → ℚ
  | .competitor => 8/10
  | .partner => 7/10
  | .supplier => 6/10
  | .customer => 6/10
  | .investor => 5/10
  | .subsidiary => 9/10

/-- `ImpactFactors` dataclass from `impact_models.py`.  The two
datetimes are modelled as rational seconds since an arbitrary epoch. -/
structure ImpactFactors where
  sentiment_score : ℚ
  sentiment_confidence : ℚ
  relevance_score : ℚ
  company_mentioned_count : ℕ
  is_primary_subject : Bool
  relationship_type : Option RelationshipType
  published_date : ℚ
  analysis_date : ℚ
  source_credibility : ℚ
  news_magnitude : String
  sector_impact : Bool
  market_impact : Bool
deriving DecidableEq

/-- The decay curve of `ImpactFactors.get_time_decay_factor`, as a
function of elapsed hours: linear from 1.0 down to 0.7 over the first
24h, to 0.5 by 72h, to 0.3 by 168h, then constant 0.3. -/
def timeDecayOfHours (hoursElapsed : ℚ) : ℚ :=
  if hoursElapsed ≤ 24 then 1 - 3/10 * hoursElapsed / 24
  else if hoursElapsed ≤ 72 then 7/10 - 2/10 * (hoursElapsed - 24) / 48
  else if hoursElapsed ≤ 168 then 5/10 - 2/10 * (hoursElapsed - 72) / 96
  else 3/10

/-- `ImpactFactors.get_time_decay_factor`: elapsed hours are
`(analysis_date - published_date).total_seconds() / 3600`. -/
def ImpactFactors.get_time_decay_factor (f : ImpactFactors) : ℚ :=
  timeDecayOfHours ((f.analysis_date - f.published_date) / 3600)

/-- `ImpactFactors.get_magnitude_weight`: per-magnitude-string weight
with `.get` fallback `0.5`. -/
def ImpactFactors.get_magnitude_weight (f : ImpactFactors) : ℚ :=
  if f.news_magnitude = "minor" then 3/10
  else if f.news_magnitude = "moderate" then 6/10
  else if f.news_magnitude = "major" then 9/10
  else if f.news_magnitude = "critical" then 1
  else 5/10

/-! ## Impact calculator (`services/impact/impact_calculator.py`)

The calculator's weight dict `self.weights` is inlined as the literal
weights below.  The only transcendental operation in the source is
`math.log` in `_calculate_base_score`; natural logarithm has no exact
rational embedding, so the calculator is parametrised by the function
`lnFn` standing for `math.log`, and every theorem below holds for every
choice of `lnFn`. -/

/-- `ImpactType` enum. -/
inductive ImpactType where
  | direct
  | indirect
  | sector
  | market
deriving DecidableEq

/-- `ImpactCalculator._calculate_base_score`:
`0.4·magnitude + 0.3·source + 0.3·min(1, log(count+1)/log(10))`. -/
def calculateBaseScore (lnFn : ℚ → ℚ) (f : ImpactFactors) : ℚ :=
  let magnitude_score := f.get_magnitude_weight
  let source_score := f.source_credibility
  let mention_score := min 1 (lnFn ((f.company_mentioned_count : ℚ) + 1) / lnFn 10)
  magnitude_score * (4/10) + source_score * (3/10) + mention_score * (3/10)

/-- `ImpactCalculator._calculate_sentiment_factor`: distance of the
sentiment score from neutral 0.5, rescaled to [0,1], times confidence. -/
def calculateSentimentFactor (sentiment_score confidence : ℚ) : ℚ :=
  let factor :=
    if sentiment_score > 1/2 then (sentiment_score - 1/2) * 2
    else (1/2 - sentiment_score) * 2
  factor * confidence

/-- `ImpactCalculator._calculate_relevance_factor`: relevance boosted
×1.5 for primary subject, ×1.2 for sector impact, ×1.3 for market
impact, each capped at 1.0. -/
def calculateRelevanceFactor (f : ImpactFactors) : ℚ :=
  let r0 := f.relevance_score
  let r1 := if f.is_primary_subject then min 1 (r0 * (3/2)) else r0
  let r2 := if f.sector_impact then min 1 (r1 * (12/10)) else r1
  if f.market_impact then min 1 (r2 * (13/10)) else r2

/-- `ImpactCalculator._calculate_relationship_factor`: 1.0 for the
primary subject, else the per-relationship default weight, else 0.5. -/
def calculateRelationshipFactor (f : ImpactFactors) : ℚ :=
  if f.is_primary_subject then 1
  else
    match f.relationship_type with
    | some rel => getDefaultWeight rel
    | none => 1/2

/-- `ImpactCalculator._compute_final_score`: weighted sum (weights
`magnitude 0.2, sentiment 0.3, relevance 0.25, source 0.15, recency
0.1`), multiplied by the relationship factor, clamped to [0,1] via
`max(0.0, min(1.0, ·))`. -/
def computeFinalScore (base_score sentiment_factor relevance_factor
    time_decay_factor relationship_factor : ℚ) (f : ImpactFactors) : ℚ :=
  let weighted_score :=
    base_score * (2/10) +
    sentiment_factor * (3/10) +
    relevance_factor * (25/100) +
    f.source_credibility * (15/100) +
    time_decay_factor * (1/10)
  max 0 (min 1 (weighted_score * relationship_factor))

/-- `ImpactCalculator._calculate_confidence`: unweighted mean of the
four confidence components. -/
def calculateConfidence (f : ImpactFactors) : ℚ :=
  (f.sentiment_confidence +
   f.source_credibility +
   min 1 ((f.company_mentioned_count : ℚ) / 5) +
   (if f.is_primary_subject then 1 else 7/10)) / 4

/-- `ImpactCalculator._determine_impact_type`. -/
def determineImpactType (f : ImpactFactors) : ImpactType :=
  if f.is_primary_subject then .direct
  else if f.relationship_type.isSome then .indirect
  else if f.sector_impact then .sector
  else if f.market_impact then .market
  else .indirect

/-- `ImpactScore` dataclass (`impact_models.py`); the presentational
`explanation` string and the wall-clock `calculated_at` are omitted. -/
structure ImpactScore where
  article_id : ℕ
  company_id : ℕ
  base_score : ℚ
  sentiment_factor : ℚ
  relevance_factor : ℚ
  time_decay_factor : ℚ
  relationship_factor : ℚ
  final_score : ℚ
  confidence : ℚ
  impact_type : ImpactType
  factors : ImpactFactors
deriving DecidableEq

/-- `ImpactCalculator.calculate_impact`, assembling the sub-factors
exactly as steps 1–8 of the source. -/
def calculate_impact (lnFn : ℚ → ℚ) (f : ImpactFactors)
    (article_id company_id : ℕ) : ImpactScore :=
  let base_score := calculateBaseScore lnFn f
  let sentiment_factor :=
    calculateSentimentFactor f.sentiment_score f.sentiment_confidence
  let relevance_factor := calculateRelevanceFactor f
  let time_decay_factor := f.get_time_decay_factor
  let relationship_factor := calculateRelationshipFactor f
  let final_score := computeFinalScore base_score sentiment_factor
    relevance_factor time_decay_factor relationship_factor f
  { article_id := article_id
    company_id := company_id
    base_score := base_score
    sentiment_factor := sentiment_factor
    relevance_factor := relevance_factor
    time_decay_factor := time_decay_factor
    relationship_factor := relationship_factor
    final_score := final_score
    confidence := calculateConfidence f
    impact_type := determineImpactType f
    factors := f }

/-! ## Notification model (`services/notification/notification_models.py`) -/

/-- `NotificationType` enum. -/
inductive NotificationType where
  | high_impact_news
  | sentiment_alert
  | price_movement
  | watchlist_update
  | market_alert
  | system
deriving DecidableEq

/-- `NotificationPriority` enum, in its Python declaration order
(`for priority in NotificationPriority` iterates CRITICAL, HIGH,
MEDIUM, LOW). -/
inductive NotificationPriority where
  | critical
  | high
  | medium
  | low
deriving DecidableEq

/-- `NotificationChannel` enum. -/
inductive NotificationChannel where
  | websocket
  | email
  | push
  | in_app
deriving DecidableEq

/-- `NotificationSettings` dataclass.  `type_settings` and
`channel_settings` are Python dicts read through
`.get(key, default)`; they are modelled as the total functions those
reads induce (`type_settings.get(t, True)`, and the service reads
`channel_settings.get(c, False)`). -/
structure NotificationSettings where
  user_id : String
  enabled : Bool := true
  type_settings : NotificationType → Bool := fun _ => true
  channel_settings : NotificationChannel → Bool := fun c =>
    decide (c = .websocket ∨ c = .in_app)
  impact_threshold : ℚ := 7/10
  sentiment_change_threshold : ℚ := 3/10
  quiet_hours_start : Option ℕ := none
  quiet_hours_end : Option ℕ := none
  watchlist_company_ids : List ℕ := []

/-- `NotificationSettings.should_send`: disabled users and disabled
types block; inside a configured quiet window only
`HIGH_IMPACT_NEWS` passes. -/
def NotificationSettings.should_send (s : NotificationSettings)
    (notification_type : NotificationType) (current_hour : ℕ) : Bool :=
  if !s.enabled then false
  else if !s.type_settings notification_type then false
  else
    match s.quiet_hours_start, s.quiet_hours_end with
    | some qs, some qe =>
        if qs ≤ current_hour ∧ current_hour < qe then
          decide (notification_type = .high_impact_news)
        else true
    | _, _ => true

/-- `Notification` dataclass.  The free-form `data` dict is read by the
queue only through `data.get('retry_count', 0)`, modelled as the
`retry_count` field (initially 0, matching the missing key); wall-clock
timestamps are rational seconds. -/
structure Notification where
  id : ℕ
  user_id : String
  type : NotificationType
  priority : NotificationPriority
  title : String := ""
  message : String := ""
  retry_count : ℕ := 0
  article_id : Option ℕ := none
  company_id : Option ℕ := none
  channels : List NotificationChannel := [.websocket, .in_app]
  sent_at : Option ℚ := none
  read_at : Option ℚ := none
  created_at : ℚ := 0
  expires_at : Option ℚ := none
deriving DecidableEq

/-- `Notification.is_expired` at wall-clock time `now`
(`datetime.utcnow() > self.expires_at`). -/
def Notification.is_expired (n : Notification) (now : ℚ) : Bool :=
  match n.expires_at with
  | none => false
  | some e => now > e

/-! ## Notification queue (`services/notification/notification_queue.py`) -/

/-- One entry of `self.retry_queue`: the dict
`{'notification': ..., 'retry_at': ..., 'retry_count': ...}`.
In the source the dict aliases the `Notification` object whose
`data['retry_count']` is incremented right after the dict is built, so
the stored notification carries the incremented count. -/
structure RetryItem where
  notification : Notification
  retry_at : ℚ
  retry_count : ℕ
deriving DecidableEq

/-- `NotificationQueue` state: the four priority deques, the
`processing` id set (modelled as a list with set-style membership), the
retry deque and the stats counters. -/
structure NotificationQueue where
  max_size : ℕ := 10000
  critical : List Notification := []
  high : List Notification := []
  medium : List Notification := []
  low : List Notification := []
  processing : List ℕ := []
  retry_queue : List RetryItem := []
  stats_enqueued : ℕ := 0
  stats_sent : ℕ := 0
  stats_failed : ℕ := 0
  stats_retried : ℕ := 0
deriving DecidableEq

/-- The deque `self.queues[p]`. -/
def NotificationQueue.bucket (q : NotificationQueue) :
    NotificationPriority → List Notification
  | .critical => q.critical
  | .high => q.high
  | .medium => q.medium
  | .low => q.low

/-- `sum(len(q) for q in self.queues.values())`. -/
def NotificationQueue.total_size (q : NotificationQueue) : ℕ :=
  q.critical.length + q.high.length + q.medium.length + q.low.length

/-- Append a notification to its priority's deque. -/
def NotificationQueue.push (q : NotificationQueue) (n : Notification) :
    NotificationQueue :=
  match n.priority with
  | .critical => { q with critical := q.critical ++ [n] }
  | .high => { q with high := q.high ++ [n] }
  | .medium => { q with medium := q.medium ++ [n] }
  | .low => { q with low := q.low ++ [n] }

/-- `NotificationQueue.enqueue`: reject when the total queued count has
reached `max_size`, else append to the priority bucket. -/
def NotificationQueue.enqueue (q : NotificationQueue) (n : Notification) :
    Bool × NotificationQueue :=
  if q.total_size ≥ q.max_size then (false, q)
  else (true, { q.push n with stats_enqueued := q.stats_enqueued + 1 })

/-- `NotificationQueue.dequeue` at wall-clock time `now`: pop the first
non-empty priority deque in CRITICAL, HIGH, MEDIUM, LOW order; only
when all four are empty, serve the head of the retry deque if its
`retry_at` has passed. -/
def NotificationQueue.dequeue (q : NotificationQueue) (now : ℚ) :
    Option Notification × NotificationQueue :=
  match q.critical with
  | n :: rest =>
      (some n, { q with critical := rest, processing := n.id :: q.processing })
  | [] =>
  match q.high with
  | n :: rest =>
      (some n, { q with high := rest, processing := n.id :: q.processing })
  | [] =>
  match q.medium with
  | n :: rest =>
      (some n, { q with medium := rest, processing := n.id :: q.processing })
  | [] =>
  match q.low with
  | n :: rest =>
      (some n, { q with low := rest, processing := n.id :: q.processing })
  | [] =>
  match q.retry_queue with
  | item :: rest =>
      if item.retry_at ≤ now then
        (some item.notification,
         { q with retry_queue := rest,
                  processing := item.notification.id :: q.processing,
                  stats_retried := q.stats_retried + 1 })
      else (none, q)
  | [] => (none, q)

/-- `NotificationQueue.mark_sent`. -/
def NotificationQueue.mark_sent (q : NotificationQueue)
    (notification_id : ℕ) : NotificationQueue :=
  if notification_id ∈ q.processing then
    { q with processing := q.processing.erase notification_id,
             stats_sent := q.stats_sent + 1 }
  else q

/-- `NotificationQueue._should_retry`: `retry_count` below 3 for
CRITICAL, below 2 otherwise. -/
def shouldRetry (n : Notification) : Bool :=
  n.retry_count < (if n.priority = .critical then 3 else 2)

/-- `NotificationQueue._get_retry_delay` in seconds: exponential
backoff `base · 2^retry_count` (base 5s for CRITICAL, 30s otherwise)
capped at 300s. -/
def getRetryDelay (n : Notification) : ℚ :=
  let base_delay : ℚ := if n.priority = .critical then 5 else 30
  min (base_delay * 2 ^ n.retry_count) 300

/-- `NotificationQueue.mark_failed` at time `now`: drop the id from
`processing`; when `retry` is set and the retry budget is not
exhausted, schedule the (count-incremented, aliased) notification on
the retry deque `getRetryDelay` seconds later; otherwise the
notification is dropped — the function is total either way, nothing is
raised to the caller. -/
def NotificationQueue.mark_failed (q : NotificationQueue)
    (n : Notification) (retry : Bool) (now : ℚ) : NotificationQueue :=
  let q1 := { q with
    processing :=
      if n.id ∈ q.processing then q.processing.erase n.id else q.processing,
    stats_failed := q.stats_failed + 1 }
  if retry ∧ shouldRetry n then
    { q1 with retry_queue := q1.retry_queue ++
        [{ notification := { n with retry_count := n.retry_count + 1 }
           retry_at := now + getRetryDelay n
           retry_count := n.retry_count + 1 }] }
  else q1

/-! ## Dispatcher (`services/notification/notification_service.py`)

`NotificationService._send_notification` checks the recipient's
settings (a block is reported as success), then attempts each of the
notification's channels that is enabled in the settings: WEBSOCKET
succeeds exactly when the external socket transport delivers (the
boolean `ws_delivers` models `websocket_manager.send_notification`),
IN_APP always succeeds (write-through to storage), EMAIL/PUSH are
unimplemented and never sent.  Success is "some channel sent". -/

/-- The channels actually sent by `_send_notification`'s loop. -/
def sentChannels (settings : NotificationSettings) (ws_delivers : Bool)
    (n : Notification) : List NotificationChannel :=
  n.channels.filter fun c =>
    settings.channel_settings c &&
      match c with
      | .websocket => ws_delivers
      | .in_app => true
      | _ => false

/-- `NotificationService._send_notification` at wall-clock hour
`current_hour`: returns the success flag and the channels delivered
on.  There is no expiry check on this path. -/
def send_notification (settings : NotificationSettings)
    (ws_delivers : Bool) (current_hour : ℕ) (n : Notification) :
    Bool × List NotificationChannel :=
  if !settings.should_send n.type current_hour then (true, [])
  else
    let sent := sentChannels settings ws_delivers n
    (!sent.isEmpty, sent)

/-- One iteration of the worker loop
`NotificationService._process_notifications`: dequeue, dispatch, then
`mark_sent` on success and `mark_failed` (with retry) on failure. -/
def process_once (q : NotificationQueue)
    (settings : String → NotificationSettings) (ws_delivers : String → Bool)
    (now : ℚ) (current_hour : ℕ) : NotificationQueue :=
  match q.dequeue now with
  | (none, q') => q'
  | (some n, q') =>
      let success := (send_notification (settings n.user_id)
        (ws_delivers n.user_id) current_hour n).1
      if success then q'.mark_sent n.id
      else q'.mark_failed n true now

/-- The expiry filter of `NotificationQueue.load_pending_notifications`
(the only place on the pipeline where `is_expired` is consulted): of
the unsent notifications reloaded from storage, only the unexpired
ones are re-enqueued. -/
def loadPendingFilter (now : ℚ) (records : List Notification) :
    List Notification :=
  records.filter fun n => !n.is_expired now

/-! ## Deduplicator (`services/news/deduplication.py`)

The string primitives of the deduplicator — `_normalize_url`
(urllib-based), `_calculate_title_similarity`
(`difflib.SequenceMatcher.ratio` over `_normalize_title`-normalised
titles) and `_generate_content_hash` (MD5 over title + body prefix) —
are taken as parameters in `DedupPrimitives`; every theorem below
holds for every choice of them.  The `(bool, reason)` pair returned by
`is_duplicate` carries a presentational reason string that nothing
downstream branches on; the embedding keeps the boolean. -/

/-- An article record as consumed by the deduplicator
(`article['url']`, `article.get('title', '')`, body fields, source). -/
structure Article where
  url : String
  title : String := ""
  content : String := ""
  summary : String := ""
  source : String := ""
deriving DecidableEq

/-- The string primitives of `NewsDeduplicator`, plus its
`similarity_threshold` (default 0.85). -/
structure DedupPrimitives where
  normalize_url : String → String
  title_similarity : String → String → ℚ
  content_hash : Article → String
  similarity_threshold : ℚ := 85/100

/-- The seen-sets of `NewsDeduplicator` (`seen_urls`, `seen_titles`,
`seen_hashes`), modelled as lists with set-style membership. -/
structure SeenState where
  seen_urls : List String := []
  seen_titles : List String := []
  seen_hashes : List String := []

/-- `NewsDeduplicator.is_duplicate`: normalized-URL membership, then
content-hash membership, then title similarity against every seen
title, then (when a batch list is supplied) URL equality and title
similarity against each batch article. -/
def is_duplicate (d : DedupPrimitives) (st : SeenState)
    (existing_articles : List Article) (a : Article) : Bool :=
  let normalized_url := d.normalize_url a.url
  if normalized_url ∈ st.seen_urls then true
  else if d.content_hash a ∈ st.seen_hashes then true
  else if st.seen_titles.any
      (fun t => d.title_similarity a.title t ≥ d.similarity_threshold) then
    true
  else existing_articles.any fun e =>
    d.normalize_url e.url = normalized_url ||
    d.title_similarity a.title e.title ≥ d.similarity_threshold

/-- `NewsDeduplicator.add_article`: record the article's normalized
URL, raw title and content hash in the seen-sets. -/
def add_article (d : DedupPrimitives) (st : SeenState) (a : Article) :
    SeenState :=
  { seen_urls := d.normalize_url a.url :: st.seen_urls
    seen_titles := a.title :: st.seen_titles
    seen_hashes := d.content_hash a :: st.seen_hashes }

/-- The loop of `NewsDeduplicator.filter_duplicates`: `unique` is the
batch list built so far; an admitted article is appended to it and
added to the seen-sets immediately. -/
def filterDupsAux (d : DedupPrimitives) (st : SeenState)
    (unique : List Article) : List Article → List Article × SeenState
  | [] => (unique, st)
  | a :: rest =>
      if is_duplicate d st unique a then filterDupsAux d st unique rest
      else filterDupsAux d (add_article d st a) (unique ++ [a]) rest

/-- `NewsDeduplicator.filter_duplicates`, as a function of the
deduplicator's seen-state: returns the admitted articles and the
updated seen-state. -/
def filter_duplicates (d : DedupPrimitives) (st : SeenState)
    (articles : List Article) : List Article × SeenState :=
  filterDupsAux d st [] articles

/-! ## Rate limiter (`services/news/rate_limiter.py`) -/

/-- One entry of `RateLimiter.limits`: request quota and window
seconds. -/
structure RateConfig where
  requests : ℕ
  window : ℚ
deriving DecidableEq

/-- Substring test, modelling Python's `in` on strings. -/
def strContains (s pattern : String) : Bool :=
  decide (pattern.toList <:+: s.toList)

/-- `RateLimiter.get_limit_config`: RSS/feed/XML domains get the
tighter `rss` budget (30/min); `news.google.com` gets 100/min; every
other domain the 60/min default. -/
def get_limit_config (domain : String) : RateConfig :=
  if strContains domain "rss" || strContains domain "feed" ||
      strContains domain ".xml" then
    { requests := 30, window := 60 }
  else if domain = "news.google.com" then { requests := 100, window := 60 }
  else { requests := 60, window := 60 }

/-- `RateLimiter.wait_if_needed`, per-domain slice: given the domain's
request-timestamp history and the current time, return the seconds
waited and the updated history.  When the window holds the full quota
and a positive wait is due, the source sleeps and returns **without
recording the request**; only the no-wait path appends `now` (the
history deque has `maxlen=1000`, dropping the oldest entry when
full). -/
def wait_if_needed (cfg : RateConfig) (history : List ℚ) (now : ℚ) :
    ℚ × List ℚ :=
  let window_start := now - cfg.window
  let recent_requests := history.filter fun t => t > window_start
  let record : List ℚ :=
    if history.length < 1000 then history ++ [now]
    else history.tail ++ [now]
  if recent_requests.length ≥ cfg.requests then
    let wait_time := recent_requests.headI + cfg.window - now
    if wait_time > 0 then (wait_time, history)
    else (0, record)
  else (0, record)

/-! ## Theorems -/

/-- The clamp in `_compute_final_score` keeps every final score in
[0,1], for any values of the intermediate factors. -/
lemma computeFinalScore_nonneg (b s r t rel : ℚ) (f : ImpactFactors) :
    0 ≤ computeFinalScore b s r t rel f :=
  le_max_left _ _

lemma computeFinalScore_le_one (b s r t rel : ℚ) (f : ImpactFactors) :
    computeFinalScore b s r t rel f ≤ 1 :=
  max_le zero_le_one (min_le_left _ _)

/-- `_calculate_confidence` is a mean of four values in [0,1]. -/
lemma calculateConfidence_mem (f : ImpactFactors)
    (hc0 : 0 ≤ f.sentiment_confidence) (hc1 : f.sentiment_confidence ≤ 1)
    (hb0 : 0 ≤ f.source_credibility) (hb1 : f.source_credibility ≤ 1) :
    0 ≤ calculateConfidence f ∧ calculateConfidence f ≤ 1 := by
  unfold calculateConfidence
  have h30 : (0:ℚ) ≤ min 1 ((f.company_mentioned_count : ℚ) / 5) :=
    le_min (by norm_num) (by positivity)
  have h31 : min 1 ((f.company_mentioned_count : ℚ) / 5) ≤ 1 :=
    min_le_left _ _
  cases hp : f.is_primary_subject <;>
    simp only [hp, Bool.false_eq_true, if_false, if_true] <;>
    constructor <;> linarith

/-- C1: for every valid `ImpactFactors` input (sentiment score and
confidence, relevance score and source credibility each in [0,1],
mention count a natural number, analysis date not before publish
date), `calculate_impact` — for every stand-in `lnFn` for `math.log` —
produces an `ImpactScore` whose `final_score` and `confidence` both
lie in [0,1]. -/
theorem impact_score_bounded (lnFn : ℚ → ℚ) (f : ImpactFactors)
    (article_id company_id : ℕ)
    (hs0 : 0 ≤ f.sentiment_score) (hs1 : f.sentiment_score ≤ 1)
    (hc0 : 0 ≤ f.sentiment_confidence) (hc1 : f.sentiment_confidence ≤ 1)
    (hr0 : 0 ≤ f.relevance_score) (hr1 : f.relevance_score ≤ 1)
    (hb0 : 0 ≤ f.source_credibility) (hb1 : f.source_credibility ≤ 1)
    (hd : f.published_date ≤ f.analysis_date) :
    0 ≤ (calculate_impact lnFn f article_id company_id).final_score ∧
    (calculate_impact lnFn f article_id company_id).final_score ≤ 1 ∧
    0 ≤ (calculate_impact lnFn f article_id company_id).confidence ∧
    (calculate_impact lnFn f article_id company_id).confidence ≤ 1 := by
  obtain ⟨h1, h2⟩ := calculateConfidence_mem f hc0 hc1 hb0 hb1
  exact ⟨computeFinalScore_nonneg _ _ _ _ _ _,
    computeFinalScore_le_one _ _ _ _ _ _, h1, h2⟩

/-- A concrete, fully valid scoring input used to witness the bound
theorems. -/
def exampleFactors : ImpactFactors :=
  { sentiment_score := mkRat 9 10
    sentiment_confidence := mkRat 9 10
    relevance_score := mkRat 8 10
    company_mentioned_count := 3
    is_primary_subject := true
    relationship_type := none
    published_date := 0
    analysis_date := 3600
    source_credibility := mkRat 9 10
    news_magnitude := "major"
    sector_impact := false
    market_impact := false }

theorem impact_score_bounded_witness :
    (0 ≤ exampleFactors.sentiment_score ∧ exampleFactors.sentiment_score ≤ 1 ∧
     0 ≤ exampleFactors.sentiment_confidence ∧
     exampleFactors.sentiment_confidence ≤ 1 ∧
     0 ≤ exampleFactors.relevance_score ∧ exampleFactors.relevance_score ≤ 1 ∧
     0 ≤ exampleFactors.source_credibility ∧
     exampleFactors.source_credibility ≤ 1 ∧
     exampleFactors.published_date ≤ exampleFactors.analysis_date) ∧
    (0 ≤ (calculate_impact (fun _ => 0) exampleFactors 1 2).final_score ∧
     (calculate_impact (fun _ => 0) exampleFactors 1 2).final_score ≤ 1 ∧
     0 ≤ (calculate_impact (fun _ => 0) exampleFactors 1 2).confidence ∧
     (calculate_impact (fun _ => 0) exampleFactors 1 2).confidence ≤ 1) :=
  ⟨by decide,
   impact_score_bounded (fun _ => 0) exampleFactors 1 2 (by decide) (by decide)
     (by decide) (by decide) (by decide) (by decide) (by decide) (by decide)
     (by decide)⟩

/-- C7: the time-decay factor of `get_time_decay_factor` is
non-increasing over non-negative elapsed hours, evaluates to 0.7 at
24h (inside [0.69, 0.71]), to exactly 0.3 at 168h and at 1000h, and
never falls below the 0.3 floor. -/
theorem time_decay_properties :
    (∀ f : ImpactFactors, f.get_time_decay_factor =
      timeDecayOfHours ((f.analysis_date - f.published_date) / 3600)) ∧
    (∀ h1 h2 : ℚ, 0 ≤ h1 → h1 < h2 →
      timeDecayOfHours h2 ≤ timeDecayOfHours h1) ∧
    (69/100 ≤ timeDecayOfHours 24 ∧ timeDecayOfHours 24 ≤ 71/100) ∧
    timeDecayOfHours 168 = 3/10 ∧
    timeDecayOfHours 1000 = 3/10 ∧
    (∀ h : ℚ, 0 ≤ h → 3/10 ≤ timeDecayOfHours h) := by
  refine ⟨fun f => rfl, ?_, by norm_num [timeDecayOfHours],
    by norm_num [timeDecayOfHours], by norm_num [timeDecayOfHours], ?_⟩
  · intro h1 h2 _ hlt
    unfold timeDecayOfHours
    split_ifs <;> linarith
  · intro h _
    unfold timeDecayOfHours
    split_ifs <;> linarith

theorem time_decay_properties_witness :
    ((0:ℚ) ≤ 24 ∧ (24:ℚ) < 48 ∧
      timeDecayOfHours 48 ≤ timeDecayOfHours 24) ∧
    ((0:ℚ) ≤ 200 ∧ 3/10 ≤ timeDecayOfHours 200) :=
  ⟨⟨by decide, by decide,
    time_decay_properties.2.1 24 48 (by decide) (by decide)⟩,
   ⟨by decide, time_decay_properties.2.2.2.2.2 200 (by decide)⟩⟩

/-- A LOW-priority and a CRITICAL-priority test notification. -/
def lowNote : Notification :=
  { id := 1, user_id := "u1", type := .system, priority := .low }

def critNote : Notification :=
  { id := 2, user_id := "u1", type := .system, priority := .critical }

/-- C2: `dequeue` serves the head of the first non-empty priority
bucket in CRITICAL > HIGH > MEDIUM > LOW order — a lower bucket is
never served while a higher one is non-empty — and consults the retry
schedule only when all four buckets are simultaneously empty; in the
concrete scenario, after enqueuing one LOW and then one CRITICAL
notification into an empty queue, the first dequeue returns the
CRITICAL one. -/
theorem dequeue_priority_order :
    (∀ (q : NotificationQueue) (now : ℚ), q.critical ≠ [] →
      (q.dequeue now).1 = q.critical.head?) ∧
    (∀ (q : NotificationQueue) (now : ℚ), q.critical = [] → q.high ≠ [] →
      (q.dequeue now).1 = q.high.head?) ∧
    (∀ (q : NotificationQueue) (now : ℚ), q.critical = [] → q.high = [] →
      q.medium ≠ [] → (q.dequeue now).1 = q.medium.head?) ∧
    (∀ (q : NotificationQueue) (now : ℚ), q.critical = [] → q.high = [] →
      q.medium = [] → q.low ≠ [] → (q.dequeue now).1 = q.low.head?) ∧
    (∀ (q : NotificationQueue) (now : ℚ), q.critical = [] → q.high = [] →
      q.medium = [] → q.low = [] →
      (q.dequeue now).1 =
        match q.retry_queue with
        | item :: _ =>
            if item.retry_at ≤ now then some item.notification else none
        | [] => none) ∧
    ((NotificationQueue.enqueue {} lowNote).1 = true ∧
     (((NotificationQueue.enqueue {} lowNote).2).enqueue critNote).1 = true ∧
     (((((NotificationQueue.enqueue {} lowNote).2).enqueue critNote).2).dequeue
        0).1 = some critNote) := by
  refine ⟨?_, ?_, ?_, ?_, ?_, by decide⟩
  · intro q now h
    cases hc : q.critical with
    | nil => exact absurd hc h
    | cons n rest => simp [NotificationQueue.dequeue, hc]
  · intro q now hc h
    cases hh : q.high with
    | nil => exact absurd hh h
    | cons n rest => simp [NotificationQueue.dequeue, hc, hh]
  · intro q now hc hh h
    cases hm : q.medium with
    | nil => exact absurd hm h
    | cons n rest => simp [NotificationQueue.dequeue, hc, hh, hm]
  · intro q now hc hh hm h
    cases hl : q.low with
    | nil => exact absurd hl h
    | cons n rest => simp [NotificationQueue.dequeue, hc, hh, hm, hl]
  · intro q now hc hh hm hl
    cases hr : q.retry_queue with
    | nil => simp [NotificationQueue.dequeue, hc, hh, hm, hl, hr]
    | cons item rest =>
        simp only [NotificationQueue.dequeue, hc, hh, hm, hl, hr]
        split_ifs <;> simp

/-- A queue holding one LOW and one CRITICAL notification, used to
witness the priority-order theorem. -/
def mixedQueue : NotificationQueue :=
  { critical := [critNote], low := [lowNote] }

theorem dequeue_priority_order_witness :
    mixedQueue.critical ≠ [] ∧
    (mixedQueue.dequeue 0).1 = mixedQueue.critical.head? :=
  ⟨by decide, dequeue_priority_order.1 mixedQueue 0 (by decide)⟩

/-- CRITICAL and MEDIUM notifications carrying a given retry count
(`data['retry_count']`), for the retry-exhaustion trace. -/
def cFail (k : ℕ) : Notification :=
  { id := 3, user_id := "u2", type := .system, priority := .critical,
    retry_count := k }

def mFail (k : ℕ) : Notification :=
  { id := 4, user_id := "u2", type := .system, priority := .medium,
    retry_count := k }

/-- C3: `mark_failed` with `retry=True` reschedules exactly while
`retry_count` is below the budget (3 for CRITICAL, 2 otherwise),
scheduling the failure `min(baseDelay · 2^retryCount, 300)` seconds
later with `baseDelay` 5s for CRITICAL and 30s otherwise, and
otherwise drops the notification, leaving the retry schedule
unchanged and returning normally.  Concretely a fresh CRITICAL
notification is rescheduled on its first three failures (delays 5s,
10s, 20s) and dropped on its fourth, and a fresh MEDIUM notification
is rescheduled on its first two failures (delays 30s, 60s) and
dropped on its third. -/
theorem retry_exhaustion_and_backoff :
    (∀ (q : NotificationQueue) (n : Notification) (now : ℚ),
      n.retry_count < (if n.priority = .critical then 3 else 2) →
      (q.mark_failed n true now).retry_queue = q.retry_queue ++
        [{ notification := { n with retry_count := n.retry_count + 1 }
           retry_at := now +
             min ((if n.priority = .critical then (5:ℚ) else 30) *
               2 ^ n.retry_count) 300
           retry_count := n.retry_count + 1 }]) ∧
    (∀ (q : NotificationQueue) (n : Notification) (now : ℚ),
      ¬ n.retry_count < (if n.priority = .critical then 3 else 2) →
      (q.mark_failed n true now).retry_queue = q.retry_queue) ∧
    ((NotificationQueue.mark_failed {} (cFail 0) true 0).retry_queue =
        [⟨cFail 1, 5, 1⟩] ∧
     (NotificationQueue.mark_failed {} (cFail 1) true 0).retry_queue =
        [⟨cFail 2, 10, 2⟩] ∧
     (NotificationQueue.mark_failed {} (cFail 2) true 0).retry_queue =
        [⟨cFail 3, 20, 3⟩] ∧
     (NotificationQueue.mark_failed {} (cFail 3) true 0).retry_queue = [] ∧
     (NotificationQueue.mark_failed {} (mFail 0) true 0).retry_queue =
        [⟨mFail 1, 30, 1⟩] ∧
     (NotificationQueue.mark_failed {} (mFail 1) true 0).retry_queue =
        [⟨mFail 2, 60, 2⟩] ∧
     (NotificationQueue.mark_failed {} (mFail 2) true 0).retry_queue = []) := by
  have hmc := eq_false
    (by decide : NotificationPriority.medium ≠ NotificationPriority.critical)
  refine ⟨?_, ?_, by
    norm_num [NotificationQueue.mark_failed, shouldRetry, getRetryDelay,
      cFail, mFail, min_def, hmc]⟩
  · intro q n now h
    simp [NotificationQueue.mark_failed, shouldRetry, getRetryDelay, h]
  · intro q n now h
    simp [NotificationQueue.mark_failed, shouldRetry, getRetryDelay, h]

theorem retry_exhaustion_and_backoff_witness :
    ¬ (cFail 3).retry_count <
        (if (cFail 3).priority = .critical then 3 else 2) ∧
    (NotificationQueue.mark_failed mixedQueue (cFail 3) true 7).retry_queue =
      mixedQueue.retry_queue :=
  ⟨by decide,
   retry_exhaustion_and_backoff.2.1 mixedQueue (cFail 3) 7 (by decide)⟩

/-- `push` grows the total queued count by exactly one and keeps the
cap. -/
lemma push_total_size (q : NotificationQueue) (n : Notification) :
    (q.push n).total_size = q.total_size + 1 ∧
    (q.push n).max_size = q.max_size := by
  unfold NotificationQueue.push
  cases n.priority <;> refine ⟨?_, rfl⟩ <;>
    simp [NotificationQueue.total_size] <;> omega

/-- One `enqueue` preserves the capacity invariant. -/
lemma enqueue_preserves_cap (q : NotificationQueue) (n : Notification)
    (h : q.total_size ≤ q.max_size) :
    ((q.enqueue n).2).total_size ≤ q.max_size ∧
    ((q.enqueue n).2).max_size = q.max_size := by
  unfold NotificationQueue.enqueue
  split_ifs with hfull
  · exact ⟨h, rfl⟩
  · obtain ⟨h1, h2⟩ := push_total_size q n
    constructor
    · show (q.push n).total_size ≤ q.max_size
      omega
    · exact h2

/-- Folding `enqueue` over a list of producers
(`(q.enqueue n).2` for each notification in turn). -/
def enqueueAll (q : NotificationQueue) (ns : List Notification) :
    NotificationQueue :=
  ns.foldl (fun q n => (q.enqueue n).2) q

lemma enqueueAll_cap (ns : List Notification) (q : NotificationQueue)
    (h : q.total_size ≤ q.max_size) :
    (enqueueAll q ns).total_size ≤ q.max_size := by
  induction ns generalizing q with
  | nil => exact h
  | cons n rest ih =>
      obtain ⟨h1, h2⟩ := enqueue_preserves_cap q n h
      have := ih ((q.enqueue n).2) (h2 ▸ h1)
      simpa [enqueueAll, h2] using this

/-- C6: `enqueue` returns `false` and leaves the queue unchanged
whenever the total count across the four priority buckets has reached
`max_size`, and consequently, starting from any queue within its cap
(in particular the empty queue), the total queued count never exceeds
the cap after any sequence of enqueues. -/
theorem enqueue_backpressure :
    (∀ (q : NotificationQueue) (n : Notification),
      q.total_size ≥ q.max_size → q.enqueue n = (false, q)) ∧
    (∀ (q : NotificationQueue) (ns : List Notification),
      q.total_size ≤ q.max_size →
      (enqueueAll q ns).total_size ≤ q.max_size) := by
  constructor
  · intro q n h
    simp [NotificationQueue.enqueue, h]
  · intro q ns h
    exact enqueueAll_cap ns q h

/-- A queue whose cap is already reached (capacity 1, one queued
notification). -/
def tinyFullQueue : NotificationQueue :=
  { max_size := 1, low := [lowNote] }

theorem enqueue_backpressure_witness :
    tinyFullQueue.total_size ≥ tinyFullQueue.max_size ∧
    tinyFullQueue.enqueue critNote = (false, tinyFullQueue) ∧
    tinyFullQueue.total_size ≤ tinyFullQueue.max_size ∧
    (enqueueAll tinyFullQueue [critNote, lowNote]).total_size ≤
      tinyFullQueue.max_size :=
  ⟨by decide, enqueue_backpressure.1 tinyFullQueue critNote (by decide),
   by decide, enqueue_backpressure.2 tinyFullQueue [critNote, lowNote]
     (by decide)⟩

/-- Settings with a quiet window covering every hour of the day, and a
HIGH_IMPACT_NEWS / SENTIMENT_ALERT notification pair for the same
user. -/
def quietSettings : NotificationSettings :=
  { user_id := "u3", quiet_hours_start := some 0, quiet_hours_end := some 24 }

def highNote : Notification :=
  { id := 10, user_id := "u3", type := .high_impact_news, priority := .high }

def sentNote : Notification :=
  { id := 11, user_id := "u3", type := .sentiment_alert, priority := .medium }

/-- C5: with quiet hours configured and the current hour inside the
window, `should_send` passes HIGH_IMPACT_NEWS and blocks every other
type; a notification blocked by settings is reported as a successful
send with no channels, so the worker marks it sent and schedules no
retry.  Concretely, under an all-day quiet window the HIGH_IMPACT_NEWS
notification is delivered on websocket and in-app while the
SENTIMENT_ALERT is blocked yet counted a success, and processing it
leaves no retry scheduled. -/
theorem quiet_hours_exemption :
    (∀ (s : NotificationSettings) (qs qe hr : ℕ),
      s.enabled = true → s.quiet_hours_start = some qs →
      s.quiet_hours_end = some qe → qs ≤ hr → hr < qe →
      (s.type_settings .high_impact_news = true →
        s.should_send .high_impact_news hr = true) ∧
      ∀ t, t ≠ NotificationType.high_impact_news →
        s.should_send t hr = false) ∧
    (∀ (s : NotificationSettings) (ws : Bool) (hr : ℕ) (n : Notification),
      s.should_send n.type hr = false →
      send_notification s ws hr n = (true, [])) ∧
    (send_notification quietSettings true 12 highNote =
       (true, [.websocket, .in_app]) ∧
     send_notification quietSettings true 12 sentNote = (true, []) ∧
     process_once { medium := [sentNote] } (fun _ => quietSettings)
       (fun _ => true) 0 12 = { stats_sent := 1 }) := by
  refine ⟨?_, ?_, by decide⟩
  · intro s qs qe hr hen hs he h1 h2
    constructor
    · intro ht
      simp [NotificationSettings.should_send, hen, hs, he, ht, h1, h2]
    · intro t hne
      by_cases hts : s.type_settings t = true
      · simp [NotificationSettings.should_send, hen, hs, he, hts, h1, h2, hne]
      · simp only [Bool.not_eq_true] at hts
        simp [NotificationSettings.should_send, hen, hts]
  · intro s ws hr n h
    simp [send_notification, h]

theorem quiet_hours_exemption_witness :
    quietSettings.enabled = true ∧
    quietSettings.quiet_hours_start = some 0 ∧
    quietSettings.quiet_hours_end = some 24 ∧
    (0 ≤ 12 ∧ 12 < 24) ∧
    quietSettings.type_settings .high_impact_news = true ∧
    quietSettings.should_send .high_impact_news 12 = true :=
  ⟨rfl, rfl, rfl, ⟨by decide, by decide⟩, rfl,
   (quiet_hours_exemption.1 quietSettings 0 24 12 rfl rfl rfl (by decide)
     (by decide)).1 rfl⟩

/-- Settings whose quiet window wraps midnight (start 22, end 6). -/
def wrapSettings : NotificationSettings :=
  { user_id := "u4", quiet_hours_start := some 22, quiet_hours_end := some 6 }

/-- C10: when the quiet window wraps midnight (start > end) the
condition `start ≤ hour < end` is unsatisfiable, so quiet hours block
nothing — `should_send` degenerates to the enabled/type checks — and
conversely only a window with start < end can ever suppress a
delivery. -/
theorem quiet_hours_wraparound :
    (∀ (s : NotificationSettings) (qs qe hr : ℕ) (t : NotificationType),
      s.quiet_hours_start = some qs → s.quiet_hours_end = some qe →
      qe < qs → s.should_send t hr = (s.enabled && s.type_settings t)) ∧
    (∀ (s : NotificationSettings) (qs qe hr : ℕ) (t : NotificationType),
      s.quiet_hours_start = some qs → s.quiet_hours_end = some qe →
      s.enabled = true → s.type_settings t = true →
      s.should_send t hr = false → qs < qe) := by
  constructor
  · intro s qs qe hr t hs he hlt
    have hcond : ¬(qs ≤ hr ∧ hr < qe) := by omega
    cases hen : s.enabled <;> cases hts : s.type_settings t <;>
      simp [NotificationSettings.should_send, hs, he, hcond, hen, hts]
  · intro s qs qe hr t hs he hen ht hsend
    by_contra hq
    have hcond : ¬(qs ≤ hr ∧ hr < qe) := by omega
    simp [NotificationSettings.should_send, hs, he, hcond, hen, ht] at hsend

theorem quiet_hours_wraparound_witness :
    wrapSettings.quiet_hours_start = some 22 ∧
    wrapSettings.quiet_hours_end = some 6 ∧ 6 < 22 ∧
    wrapSettings.should_send .sentiment_alert 23 =
      (wrapSettings.enabled && wrapSettings.type_settings .sentiment_alert) :=
  ⟨rfl, rfl, by decide,
   quiet_hours_wraparound.1 wrapSettings 22 6 23 .sentiment_alert rfl rfl
     (by decide)⟩

/-- A notification whose `expires_at` (t = 100) has already passed
when it is dispatched (t = 200). -/
def expiredNote : Notification :=
  { id := 20, user_id := "u5", type := .high_impact_news, priority := .high,
    expires_at := some 100 }

/-- C4 (code bug): `_send_notification` never consults `is_expired`,
so a notification that expired while queued is still delivered — here
at time 200, 100 seconds past expiry, on both the websocket and
in-app channels, and reported as a success.  The expiry filter fires
only when pending notifications are reloaded from storage
(`load_pending_notifications`), which would have dropped the same
record. -/
theorem expired_notification_still_sent :
    expiredNote.is_expired 200 = true ∧
    send_notification { user_id := "u5" } true 9 expiredNote =
      (true, [.websocket, .in_app]) ∧
    loadPendingFilter 200 [expiredNote] = [] := by decide

/-- The batch list built by `filter_duplicates` only ever grows: the
result extends the accumulator. -/
lemma filterDupsAux_prefix (d : DedupPrimitives) :
    ∀ (l : List Article) (st : SeenState) (u : List Article),
      ∃ e, (filterDupsAux d st u l).1 = u ++ e := by
  intro l
  induction l with
  | nil => exact fun st u => ⟨[], (List.append_nil u).symm⟩
  | cons a rest ih =>
    intro st u
    by_cases hd : is_duplicate d st u a
    · simp only [filterDupsAux, hd, if_true]
      exact ih st u
    · simp only [filterDupsAux, hd, Bool.false_eq_true, if_false]
      obtain ⟨e, he⟩ := ih (add_article d st a) (u ++ [a])
      exact ⟨a :: e, by simp [he]⟩

/-- Replay lemma: feeding the admitted articles of a
`filter_duplicates` run back through the same loop, from the same
seen-state and accumulator, reproduces the run exactly — each article
is re-checked against precisely the seen-state and batch prefix it was
originally admitted against. -/
lemma filterDupsAux_replay (d : DedupPrimitives) :
    ∀ (l : List Article) (st : SeenState) (u : List Article),
      filterDupsAux d st u ((filterDupsAux d st u l).1.drop u.length) =
        filterDupsAux d st u l := by
  intro l
  induction l with
  | nil => intro st u; simp [filterDupsAux]
  | cons a rest ih =>
    intro st u
    by_cases hd : is_duplicate d st u a
    · simp only [filterDupsAux, hd, if_true]
      exact ih st u
    · simp only [filterDupsAux, hd, Bool.false_eq_true, if_false]
      obtain ⟨e, he⟩ :=
        filterDupsAux_prefix d rest (add_article d st a) (u ++ [a])
      have hdrop :
          ((filterDupsAux d (add_article d st a) (u ++ [a]) rest).1).drop
            u.length = a :: e := by
        rw [he, List.append_assoc, List.drop_left]
        rfl
      have hdrop2 :
          ((filterDupsAux d (add_article d st a) (u ++ [a]) rest).1).drop
            (u ++ [a]).length = e := by
        rw [he, List.drop_left]
      rw [hdrop]
      simp only [filterDupsAux, hd, Bool.false_eq_true, if_false]
      rw [← hdrop2]
      exact ih (add_article d st a) (u ++ [a])

/-- C8: `filter_duplicates` is idempotent — re-running it, from the
same seen-state, on its own output reproduces that output (and the
same final seen-state): no further articles are flagged as
duplicates.  This holds for every choice of the URL-normalisation,
title-similarity and content-hash primitives and every threshold. -/
theorem filter_duplicates_idempotent (d : DedupPrimitives)
    (st : SeenState) (articles : List Article) :
    filter_duplicates d st (filter_duplicates d st articles).1 =
      filter_duplicates d st articles := by
  have h := filterDupsAux_replay d articles st []
  simpa [filter_duplicates] using h

/-- C9 (code bug): when the sliding window already holds the domain's
quota and a positive wait is due, `wait_if_needed` sleeps and returns
**without recording the new request** — the history comes back
unchanged — while on the uncontended path the request is appended.
Here the RSS budget (30/60s, selected by substring for an RSS feed
domain) is full with 30 requests at t = 0 and the call at t = 30 waits
30s yet leaves the history at 30 entries, none of them the new
request. -/
theorem rate_limiter_wait_not_recorded :
    get_limit_config "feeds.rss.example.com" =
      { requests := 30, window := 60 } ∧
    wait_if_needed { requests := 30, window := 60 }
      (List.replicate 30 (0:ℚ)) 30 = (30, List.replicate 30 (0:ℚ)) ∧
    wait_if_needed { requests := 30, window := 60 } [] 30 = (0, [30]) := by
  refine ⟨by decide, ?_, ?_⟩ <;>
    norm_num [wait_if_needed, List.headI, List.filter]

end FluxNews
